import Mathlib

/-!
Verification of the salvo CSRF middleware (`crates/csrf/src/lib.rs`).

The development shallowly embeds the `Csrf` guard's `handle` method and the
pure components it orchestrates: the default skip predicate, the token-finder
chain, the URL-safe-no-pad base64 transport codec, the cipher verify/generate
contract and the secret-store load/save contract.  Ciphers, stores, skippers
and finders are trait objects in the source; they are embedded as records of
functions, and each middleware invocation is modelled as a pure function from
the guard configuration and the per-request data to the observable outcome
(response status, flow control, store side effects, depot insertion).
-/

namespace SalvoCsrf

/-- HTTP request methods (the standard set of `salvo_core::http::Method`). -/
inductive Method where
  | GET
  | HEAD
  | POST
  | PUT
  | DELETE
  | CONNECT
  | OPTIONS
  | TRACE
  | PATCH
deriving DecidableEq, BEq, Repr

/-- An inbound request: its method plus the named fields (headers, query
parameters, form fields) that token finders read. -/
structure Request where
  method : Method
  fields : List (String × String)

/-- `default_skipper` (lib.rs line 163): skip verification unless the method
is POST, PATCH, DELETE or PUT. -/
def default_skipper (req : Request) : Bool :=
  !([Method.POST, Method.PATCH, Method.DELETE, Method.PUT].contains req.method)

/-! ## URL-safe-no-pad base64 (`base64::engine::general_purpose::URL_SAFE_NO_PAD`) -/

/-- The URL-safe base64 alphabet. -/
def URL_SAFE_CHARS : List Char :=
  "ABCDEFGHIJKLMNOPQRSTUVWXYZabcdefghijklmnopqrstuvwxyz0123456789-_".toList

/-- Character for a 6-bit value. -/
def b64char (n : Nat) : Char :=
  URL_SAFE_CHARS.getD n 'A'

/-- Encode bytes three at a time into 6-bit characters, without padding. -/
def b64encodeChunks : List Nat → List Char
  | [] => []
  | [b1] => [b64char (b1 / 4), b64char (b1 % 4 * 16)]
  | [b1, b2] =>
      [b64char (b1 / 4), b64char (b1 % 4 * 16 + b2 / 16), b64char (b2 % 16 * 4)]
  | b1 :: b2 :: b3 :: rest =>
      b64char (b1 / 4) :: b64char (b1 % 4 * 16 + b2 / 16) ::
        b64char (b2 % 16 * 4 + b3 / 64) :: b64char (b3 % 64) :: b64encodeChunks rest

/-- URL-safe-no-pad base64 encoding of a byte sequence. -/
def b64encode (bytes : List Nat) : String :=
  String.mk (b64encodeChunks bytes)

/-- 6-bit value of a base64 character; `none` for characters outside the
URL-safe alphabet. -/
def b64value (ch : Char) : Option Nat :=
  let c := ch.toNat
  if 65 ≤ c ∧ c ≤ 90 then some (c - 65)
  else if 97 ≤ c ∧ c ≤ 122 then some (c - 97 + 26)
  else if 48 ≤ c ∧ c ≤ 57 then some (c - 48 + 52)
  else if c = 45 then some 62
  else if c = 95 then some 63
  else none

/-- Decode a sequence of 6-bit values into bytes.  A trailing group of one
character is malformed, and non-zero trailing bits are rejected (the
`URL_SAFE_NO_PAD` engine does not allow trailing bits). -/
def b64decodeVals : List Nat → Option (List Nat)
  | [] => some []
  | [_] => none
  | [v1, v2] =>
      if v2 % 16 = 0 then some [v1 * 4 + v2 / 16] else none
  | [v1, v2, v3] =>
      if v3 % 4 = 0 then some [v1 * 4 + v2 / 16, v2 % 16 * 16 + v3 / 4] else none
  | v1 :: v2 :: v3 :: v4 :: rest =>
      match b64decodeVals rest with
      | some bs =>
          some ([v1 * 4 + v2 / 16, v2 % 16 * 16 + v3 / 4, v3 % 4 * 64 + v4] ++ bs)
      | none => none

/-- URL-safe-no-pad base64 decoding; `none` on any malformed input. -/
def b64decode (s : String) : Option (List Nat) :=
  match s.toList.mapM b64value with
  | some vals => b64decodeVals vals
  | none => none

/-! ## The component contracts (`CsrfCipher`, `CsrfStore`, finders) -/

/-- The `CsrfCipher` trait: verify a token against a secret, and generate a
fresh (token, secret) pair.  Generation is randomised in the source; each
embedded cipher value fixes the pair it produces, which suffices to track how
the guard uses it. -/
structure CsrfCipher where
  verify : List Nat → List Nat → Bool
  generate : List Nat × List Nat

/-- The `CsrfStore` trait: load the stored secret for the request's context,
and save a newly generated secret (which may fail with an error). -/
structure CsrfStore where
  load_secret : Request → Option (List Nat)
  save_secret : Request → List Nat → Except String Unit

/-- The `Csrf` middleware configuration (lib.rs line 211): primary cipher,
store, skip predicate, ordered finder list and ordered fallback-cipher
list. -/
structure Csrf where
  cipher : CsrfCipher
  store : CsrfStore
  skipper : Request → Bool
  finders : List (Request → Option String)
  fallback_ciphers : List CsrfCipher

/-- `CSRF_TOKEN_KEY` (lib.rs line 161): depot key under which the fresh token
is exposed. -/
def CSRF_TOKEN_KEY : String := "salvo.csrf.token"

/-- `Csrf::new` (lib.rs line 222): default skipper, a single finder, no
fallback ciphers. -/
def Csrf.new (cipher : CsrfCipher) (store : CsrfStore)
    (finder : Request → Option String) : Csrf :=
  { cipher := cipher, store := store, skipper := default_skipper,
    finders := [finder], fallback_ciphers := [] }

/-- `Csrf::add_finder` (lib.rs line 234): push a finder at the end. -/
def Csrf.add_finder (c : Csrf) (finder : Request → Option String) : Csrf :=
  { c with finders := c.finders ++ [finder] }

/-- `Csrf::add_fallabck_cipher` (lib.rs line 240, name as in the source):
push a fallback cipher at the end. -/
def Csrf.add_fallabck_cipher (c : Csrf) (cipher : CsrfCipher) : Csrf :=
  { c with fallback_ciphers := c.fallback_ciphers ++ [cipher] }

/-- Body of `Csrf::find_token` (lib.rs line 259): try each finder in order,
return the first `some` result. -/
def find_token_in (req : Request) : List (Request → Option String) → Option String
  | [] => none
  | f :: rest =>
      match f req with
      | some token => some token
      | none => find_token_in req rest

/-- `Csrf::find_token`. -/
def Csrf.find_token (c : Csrf) (req : Request) : Option String :=
  find_token_in req c.finders

/-- Number of finders the `find_token` loop invokes on this request: the loop
stops at the first finder that returns a token. -/
def find_token_consulted (req : Request) : List (Request → Option String) → Nat
  | [] => 0
  | f :: rest =>
      match f req with
      | some _ => 1
      | none => 1 + find_token_consulted req rest

/-! ## The `handle` method -/

/-- Observable outcome of one `handle` invocation: the status code written to
the response, whether `ctrl.skip_rest` was called, how many times
`ctrl.call_next` was called, the secret passed to `save_secret` (if any), the
error `save_secret` returned (if any; it is logged), and the (key, value)
pair inserted into the depot (if any). -/
structure HandleOutcome where
  status_code : Option Nat
  skipped_rest : Bool
  next_called : Nat
  saved_secret : Option (List Nat)
  save_error : Option String
  depot_insert : Option (String × String)
deriving DecidableEq, Repr

/-- The rejection outcome (each of the four early returns in `handle`):
status 403 FORBIDDEN, `skip_rest`, and nothing else happens. -/
def rejected : HandleOutcome :=
  { status_code := some 403, skipped_rest := true, next_called := 0,
    saved_secret := none, save_error := none, depot_insert := none }

/-- Lines 315–322 of `handle`: generate a fresh (token, secret) pair with the
primary cipher, save the secret (an error is logged, not propagated), encode
the token with URL-safe-no-pad base64, insert it into the depot under
`CSRF_TOKEN_KEY`, and call the next handler. -/
def Csrf.proceed (c : Csrf) (req : Request) : HandleOutcome :=
  let pair := c.cipher.generate
  let saveResult := c.store.save_secret req pair.2
  let token := b64encode pair.1
  { status_code := none, skipped_rest := false, next_called := 1,
    saved_secret := some pair.2,
    save_error :=
      match saveResult with
      | Except.ok _ => none
      | Except.error e => some e,
    depot_insert := some (CSRF_TOKEN_KEY, token) }

/-- The `for cipher in &self.fallback_ciphers` loop (lines 280–286), entered
with `valid = false`: set `valid` to true and break at the first fallback
cipher whose `verify` succeeds. -/
def fallback_verify : List CsrfCipher → List Nat → List Nat → Bool
  | [], _, _ => false
  | fc :: rest, token, secret =>
      if fc.verify token secret then true else fallback_verify rest token secret

/-- `Csrf::handle` (lib.rs lines 271–323), transcribed branch by branch.  The
guard `!valid && self.fallback_ciphers.is_empty()` on the fallback loop is
kept exactly as written in the source. -/
def Csrf.handle (c : Csrf) (req : Request) : HandleOutcome :=
  if !(c.skipper req) then
    match c.find_token req with
    | some token =>
        match b64decode token with
        | some token =>
            match c.store.load_secret req with
            | some secret =>
                let valid := c.cipher.verify token secret
                let valid :=
                  if !valid && c.fallback_ciphers.isEmpty then
                    fallback_verify c.fallback_ciphers token secret
                  else
                    valid
                if !valid then rejected else c.proceed req
            | none => rejected
        | none => rejected
    | none => rejected
  else
    c.proceed req

/-! ## Concrete components used to instantiate the theorems -/

/-- A cipher that accepts a token exactly when it equals the secret. -/
def cipherEq : CsrfCipher :=
  { verify := fun token secret => token == secret, generate := ([1, 2, 3], [1, 2, 3]) }

/-- A cipher whose `verify` always fails. -/
def cipherNever : CsrfCipher :=
  { verify := fun _ _ => false, generate := ([0], [0]) }

/-- A cipher whose `verify` always succeeds. -/
def cipherAlways : CsrfCipher :=
  { verify := fun _ _ => true, generate := ([7], [8]) }

/-- A store holding the secret `[0, 0, 0]`, whose `save_secret` succeeds. -/
def storeSecret000 : CsrfStore :=
  { load_secret := fun _ => some [0, 0, 0],
    save_secret := fun _ _ => Except.ok () }

/-- A store with no secret for any context. -/
def storeEmpty : CsrfStore :=
  { load_secret := fun _ => none,
    save_secret := fun _ _ => Except.ok () }

/-- A store holding the secret `[0, 0, 0]` whose `save_secret` always fails. -/
def storeSaveFails : CsrfStore :=
  { load_secret := fun _ => some [0, 0, 0],
    save_secret := fun _ _ => Except.error "backend unavailable" }

/-- A header finder for the field `x-csrf-token`. -/
def finderHeader : Request → Option String :=
  fun req => req.fields.lookup "x-csrf-token"

/-- A finder that never finds a token. -/
def finderNone : Request → Option String :=
  fun _ => none

/-- A GET request with no fields. -/
def reqGET : Request := { method := Method.GET, fields := [] }

/-- A POST request carrying the token `"AAAA"` (decoding to `[0, 0, 0]`) in
the `x-csrf-token` field. -/
def reqPOST : Request :=
  { method := Method.POST, fields := [("x-csrf-token", "AAAA")] }

/-- A POST request with no fields at all. -/
def reqPOSTEmpty : Request := { method := Method.POST, fields := [] }

/-- Guard: equality cipher, secret `[0, 0, 0]`, header finder. -/
def csrfEq : Csrf := Csrf.new cipherEq storeSecret000 finderHeader

/-- Guard whose store has no secret. -/
def csrfNoSecret : Csrf := Csrf.new cipherEq storeEmpty finderHeader

/-- Guard whose store's `save_secret` fails. -/
def csrfSaveFails : Csrf := Csrf.new cipherEq storeSaveFails finderHeader

/-- Guard with two finders: one that finds nothing, then the header finder. -/
def csrfTwoFinders : Csrf :=
  (Csrf.new cipherEq storeSecret000 finderNone).add_finder finderHeader

/-- Guard whose primary cipher always rejects and whose (non-empty) fallback
list holds a cipher that always accepts. -/
def csrfFallback : Csrf :=
  (Csrf.new cipherNever storeSecret000 finderHeader).add_fallabck_cipher cipherAlways

/-! ## Helper lemmas about `handle` -/

theorem handle_of_skipped (c : Csrf) (req : Request)
    (h : c.skipper req = true) :
    c.handle req = c.proceed req := by
  simp [Csrf.handle, h]

theorem handle_rejected_of_no_token (c : Csrf) (req : Request)
    (hskip : c.skipper req = false)
    (hfind : c.find_token req = none) :
    c.handle req = rejected := by
  simp [Csrf.handle, hskip, hfind]

theorem handle_rejected_of_bad_decode (c : Csrf) (req : Request) (t : String)
    (hskip : c.skipper req = false)
    (hfind : c.find_token req = some t)
    (hdec : b64decode t = none) :
    c.handle req = rejected := by
  simp [Csrf.handle, hskip, hfind, hdec]

theorem handle_rejected_of_no_secret (c : Csrf) (req : Request)
    (t : String) (tb : List Nat)
    (hskip : c.skipper req = false)
    (hfind : c.find_token req = some t)
    (hdec : b64decode t = some tb)
    (hsec : c.store.load_secret req = none) :
    c.handle req = rejected := by
  simp [Csrf.handle, hskip, hfind, hdec, hsec]

theorem handle_rejected_of_primary_fail (c : Csrf) (req : Request)
    (t : String) (tb secret : List Nat)
    (hskip : c.skipper req = false)
    (hfind : c.find_token req = some t)
    (hdec : b64decode t = some tb)
    (hsec : c.store.load_secret req = some secret)
    (hv : c.cipher.verify tb secret = false) :
    c.handle req = rejected := by
  cases hfb : c.fallback_ciphers with
  | nil => simp [Csrf.handle, hskip, hfind, hdec, hsec, hv, hfb, fallback_verify]
  | cons a l => simp [Csrf.handle, hskip, hfind, hdec, hsec, hv, hfb]

theorem handle_proceed_of_verify (c : Csrf) (req : Request)
    (t : String) (tb secret : List Nat)
    (hskip : c.skipper req = false)
    (hfind : c.find_token req = some t)
    (hdec : b64decode t = some tb)
    (hsec : c.store.load_secret req = some secret)
    (hv : c.cipher.verify tb secret = true) :
    c.handle req = c.proceed req := by
  simp [Csrf.handle, hskip, hfind, hdec, hsec, hv]

/-! ## Helper lemmas about the finder chain -/

theorem find_token_in_none_iff (req : Request)
    (fs : List (Request → Option String)) :
    find_token_in req fs = none ↔ ∀ f ∈ fs, f req = none := by
  induction fs with
  | nil => simp [find_token_in]
  | cons f rest ih =>
      cases hf : f req with
      | some t => simp [find_token_in, hf]
      | none => simp [find_token_in, hf, ih]

theorem find_token_in_first (req : Request)
    (fs : List (Request → Option String)) :
    ∀ i : Nat, ∀ hi : i < fs.length,
      (∀ j : Nat, ∀ hj : j < fs.length, j < i → fs.get ⟨j, hj⟩ req = none) →
      ∀ t : String, fs.get ⟨i, hi⟩ req = some t →
        find_token_in req fs = some t ∧ find_token_consulted req fs = i + 1 := by
  induction fs with
  | nil =>
      intro i hi
      exact absurd hi (by simp)
  | cons f rest ih =>
      intro i hi hprev t ht
      cases i with
      | zero =>
          have ht0 : f req = some t := ht
          constructor
          · simp [find_token_in, ht0]
          · simp [find_token_consulted, ht0]
      | succ k =>
          have hf : f req = none := hprev 0 (by simp) (Nat.succ_pos k)
          have hk : k < rest.length := Nat.lt_of_succ_lt_succ hi
          have hprev2 : ∀ j : Nat, ∀ hj : j < rest.length, j < k →
              rest.get ⟨j, hj⟩ req = none := by
            intro j hj hjk
            exact hprev (j + 1) (Nat.succ_lt_succ hj) (Nat.succ_lt_succ hjk)
          have ht2 : rest.get ⟨k, hk⟩ req = some t := ht
          obtain ⟨h1, h2⟩ := ih k hk hprev2 t ht2
          constructor
          · simp [find_token_in, hf, h1]
          · simp [find_token_consulted, hf, h2]
            omega

/-! ## The claims -/

/-- Claim C1 (code bug): at this concrete input the primary cipher's verify
fails, the fallback-cipher list is non-empty, and its cipher's verify
succeeds on the decoded token and stored secret — yet `handle` rejects the
request with 403.  The fallback loop (lib.rs line 278) is guarded by
`!valid && self.fallback_ciphers.is_empty()`, so it only runs when the
fallback list is empty and can never accept a request, contradicting the
documented fallback behaviour. -/
theorem C1_fallback_loop_dead :
    csrfFallback.fallback_ciphers = [cipherAlways] ∧
    csrfFallback.cipher.verify [0, 0, 0] [0, 0, 0] = false ∧
    cipherAlways.verify [0, 0, 0] [0, 0, 0] = true ∧
    csrfFallback.skipper reqPOST = false ∧
    csrfFallback.find_token reqPOST = some "AAAA" ∧
    b64decode "AAAA" = some [0, 0, 0] ∧
    csrfFallback.store.load_secret reqPOST = some [0, 0, 0] ∧
    csrfFallback.handle reqPOST = rejected :=
  ⟨rfl, rfl, rfl, rfl, rfl, rfl, rfl, rfl⟩

/-- Claim C2: for every non-skipped request the guard accepts (invokes the
downstream handler), some token was found and decoded, a secret was loaded,
and `verify(decoded_token, stored_secret)` returned true for a configured
cipher (the primary or a fallback). -/
theorem C2_accept_requires_cipher_verify (c : Csrf) (req : Request)
    (hskip : c.skipper req = false)
    (hacc : (c.handle req).next_called = 1) :
    ∃ t tb secret, c.find_token req = some t ∧ b64decode t = some tb ∧
      c.store.load_secret req = some secret ∧
      (c.cipher.verify tb secret = true ∨
        ∃ fc ∈ c.fallback_ciphers, fc.verify tb secret = true) := by
  cases hfind : c.find_token req with
  | none =>
      rw [handle_rejected_of_no_token c req hskip hfind] at hacc
      simp [rejected] at hacc
  | some t =>
      cases hdec : b64decode t with
      | none =>
          rw [handle_rejected_of_bad_decode c req t hskip hfind hdec] at hacc
          simp [rejected] at hacc
      | some tb =>
          cases hsec : c.store.load_secret req with
          | none =>
              rw [handle_rejected_of_no_secret c req t tb hskip hfind hdec hsec] at hacc
              simp [rejected] at hacc
          | some secret =>
              by_cases hv : c.cipher.verify tb secret = true
              · exact ⟨t, tb, secret, rfl, hdec, rfl, Or.inl hv⟩
              · rw [Bool.not_eq_true] at hv
                rw [handle_rejected_of_primary_fail c req t tb secret hskip hfind
                  hdec hsec hv] at hacc
                simp [rejected] at hacc

/-- Witness for C2 at a concrete guard and request. -/
theorem C2_accept_requires_cipher_verify_witness :
    ∃ t tb secret, csrfEq.find_token reqPOST = some t ∧ b64decode t = some tb ∧
      csrfEq.store.load_secret reqPOST = some secret ∧
      (csrfEq.cipher.verify tb secret = true ∨
        ∃ fc ∈ csrfEq.fallback_ciphers, fc.verify tb secret = true) :=
  C2_accept_requires_cipher_verify csrfEq reqPOST rfl rfl

/-- Claim C3: under the default skip predicate, an unsafe-method request
(POST, PATCH, PUT or DELETE) whose token is missing, not decodable, or
failing verification against the stored secret (for the primary and every
fallback cipher) gets response status 403 and the downstream handler is never
invoked. -/
theorem C3_unsafe_bad_token_rejected (c : Csrf) (req : Request)
    (hsk : c.skipper = default_skipper)
    (hm : req.method = Method.POST ∨ req.method = Method.PATCH ∨
      req.method = Method.PUT ∨ req.method = Method.DELETE)
    (hbad : c.find_token req = none ∨
      (∃ t, c.find_token req = some t ∧ b64decode t = none) ∨
      (∃ t tb secret, c.find_token req = some t ∧ b64decode t = some tb ∧
        c.store.load_secret req = some secret ∧
        c.cipher.verify tb secret = false ∧
        ∀ fc ∈ c.fallback_ciphers, fc.verify tb secret = false)) :
    (c.handle req).status_code = some 403 ∧ (c.handle req).next_called = 0 := by
  have hskip : c.skipper req = false := by
    rw [hsk]
    unfold default_skipper
    rcases hm with h | h | h | h <;> rw [h] <;> decide
  have hrej : c.handle req = rejected := by
    rcases hbad with hfind | ⟨t, hfind, hdec⟩ |
      ⟨t, tb, secret, hfind, hdec, hsec, hv, _⟩
    · exact handle_rejected_of_no_token c req hskip hfind
    · exact handle_rejected_of_bad_decode c req t hskip hfind hdec
    · exact handle_rejected_of_primary_fail c req t tb secret hskip hfind hdec hsec hv
  rw [hrej]
  exact ⟨rfl, rfl⟩

/-- Witness for C3: a POST with no token is rejected with 403 and no
downstream call. -/
theorem C3_unsafe_bad_token_rejected_witness :
    (csrfEq.handle reqPOSTEmpty).status_code = some 403 ∧
    (csrfEq.handle reqPOSTEmpty).next_called = 0 :=
  C3_unsafe_bad_token_rejected csrfEq reqPOSTEmpty rfl (Or.inl rfl) (Or.inl rfl)

/-- Claim C4: under the default skip predicate, verification is skipped
exactly when the method is not POST, PATCH, PUT or DELETE; a skipped request
proceeds directly to fresh-token generation, and the outcome does not depend
on the cipher's verify function (no verification is attempted). -/
theorem C4_default_skip_condition (c : Csrf) (req : Request)
    (hsk : c.skipper = default_skipper) :
    (c.skipper req = true ↔
      ¬(req.method = Method.POST ∨ req.method = Method.PATCH ∨
        req.method = Method.PUT ∨ req.method = Method.DELETE)) ∧
    (c.skipper req = true → c.handle req = c.proceed req) ∧
    (c.skipper req = true → ∀ v : List Nat → List Nat → Bool,
      Csrf.handle { c with cipher := { verify := v, generate := c.cipher.generate } } req =
        Csrf.proceed { c with cipher := { verify := v, generate := c.cipher.generate } } req) := by
  refine ⟨?_, ?_, ?_⟩
  · rw [hsk]
    unfold default_skipper
    cases hm : req.method <;> decide
  · intro h
    exact handle_of_skipped c req h
  · intro h v
    exact handle_of_skipped { c with cipher := { verify := v, generate := c.cipher.generate } } req h

/-- Witness for C4 at a concrete guard and a GET request. -/
theorem C4_default_skip_condition_witness :
    (csrfEq.skipper reqGET = true ↔
      ¬(reqGET.method = Method.POST ∨ reqGET.method = Method.PATCH ∨
        reqGET.method = Method.PUT ∨ reqGET.method = Method.DELETE)) ∧
    (csrfEq.skipper reqGET = true → csrfEq.handle reqGET = csrfEq.proceed reqGET) ∧
    (csrfEq.skipper reqGET = true → ∀ v : List Nat → List Nat → Bool,
      Csrf.handle { csrfEq with cipher := { verify := v, generate := csrfEq.cipher.generate } } reqGET =
        Csrf.proceed { csrfEq with cipher := { verify := v, generate := csrfEq.cipher.generate } } reqGET) :=
  C4_default_skip_condition csrfEq reqGET rfl

/-- Claim C5: for a non-skipped request with a found and decoded token, if
the store has no secret for the context, the request is rejected (status 403,
`skip_rest`, no downstream call), and the outcome does not depend on the
cipher at all — no verify is attempted. -/
theorem C5_no_secret_rejected (c : Csrf) (req : Request)
    (t : String) (tb : List Nat)
    (hskip : c.skipper req = false)
    (hfind : c.find_token req = some t)
    (hdec : b64decode t = some tb)
    (hsec : c.store.load_secret req = none) :
    c.handle req = rejected ∧
    ∀ cipher2 : CsrfCipher,
      Csrf.handle { c with cipher := cipher2 } req = rejected := by
  refine ⟨handle_rejected_of_no_secret c req t tb hskip hfind hdec hsec, ?_⟩
  intro cipher2
  exact handle_rejected_of_no_secret { c with cipher := cipher2 } req t tb
    hskip hfind hdec hsec

/-- Witness for C5 at a concrete guard whose store holds no secret. -/
theorem C5_no_secret_rejected_witness :
    csrfNoSecret.handle reqPOST = rejected ∧
    ∀ cipher2 : CsrfCipher,
      Csrf.handle { csrfNoSecret with cipher := cipher2 } reqPOST = rejected :=
  C5_no_secret_rejected csrfNoSecret reqPOST "AAAA" [0, 0, 0] rfl rfl rfl rfl

/-- Claim C6: on every continuation path (skipped request, or non-skipped
request whose token was found, decoded and verified by the primary cipher),
`handle` runs the rotation block: it generates the fresh (token, secret) pair
with the primary cipher, saves that secret, inserts the URL-safe-no-pad
base64 encoding of the token into the depot under `CSRF_TOKEN_KEY`, and calls
the next handler exactly once. -/
theorem C6_continuation_rotates (c : Csrf) (req : Request)
    (hcont : c.skipper req = true ∨
      (c.skipper req = false ∧ ∃ t tb secret,
        c.find_token req = some t ∧ b64decode t = some tb ∧
        c.store.load_secret req = some secret ∧
        c.cipher.verify tb secret = true)) :
    c.handle req = c.proceed req ∧
    (c.handle req).saved_secret = some c.cipher.generate.2 ∧
    (c.handle req).depot_insert = some (CSRF_TOKEN_KEY, b64encode c.cipher.generate.1) ∧
    (c.handle req).next_called = 1 := by
  have hp : c.handle req = c.proceed req := by
    rcases hcont with hskip | ⟨hskip, t, tb, secret, hfind, hdec, hsec, hv⟩
    · exact handle_of_skipped c req hskip
    · exact handle_proceed_of_verify c req t tb secret hskip hfind hdec hsec hv
  rw [hp]
  exact ⟨rfl, rfl, rfl, rfl⟩

/-- Witness for C6 at a concrete guard and a skipped GET request. -/
theorem C6_continuation_rotates_witness :
    csrfEq.handle reqGET = csrfEq.proceed reqGET ∧
    (csrfEq.handle reqGET).saved_secret = some csrfEq.cipher.generate.2 ∧
    (csrfEq.handle reqGET).depot_insert =
      some (CSRF_TOKEN_KEY, b64encode csrfEq.cipher.generate.1) ∧
    (csrfEq.handle reqGET).next_called = 1 :=
  C6_continuation_rotates csrfEq reqGET (Or.inl rfl)

/-- Claim C7: a failure of `save_secret` during rotation never causes
rejection: on a continuation path where the save returns an error, the status
is untouched, the flow is not halted, the next handler is still called once,
the error is recorded (logged), and the new token is still exposed in the
depot. -/
theorem C7_save_failure_nonfatal (c : Csrf) (req : Request) (e : String)
    (hcont : c.skipper req = true ∨
      (c.skipper req = false ∧ ∃ t tb secret,
        c.find_token req = some t ∧ b64decode t = some tb ∧
        c.store.load_secret req = some secret ∧
        c.cipher.verify tb secret = true))
    (herr : c.store.save_secret req c.cipher.generate.2 = Except.error e) :
    (c.handle req).status_code = none ∧
    (c.handle req).skipped_rest = false ∧
    (c.handle req).next_called = 1 ∧
    (c.handle req).save_error = some e ∧
    (c.handle req).depot_insert =
      some (CSRF_TOKEN_KEY, b64encode c.cipher.generate.1) := by
  have hp : c.handle req = c.proceed req := by
    rcases hcont with hskip | ⟨hskip, t, tb, secret, hfind, hdec, hsec, hv⟩
    · exact handle_of_skipped c req hskip
    · exact handle_proceed_of_verify c req t tb secret hskip hfind hdec hsec hv
  rw [hp]
  simp [Csrf.proceed, herr]

/-- Witness for C7 at a concrete guard whose store's save fails. -/
theorem C7_save_failure_nonfatal_witness :
    (csrfSaveFails.handle reqGET).status_code = none ∧
    (csrfSaveFails.handle reqGET).skipped_rest = false ∧
    (csrfSaveFails.handle reqGET).next_called = 1 ∧
    (csrfSaveFails.handle reqGET).save_error = some "backend unavailable" ∧
    (csrfSaveFails.handle reqGET).depot_insert =
      some (CSRF_TOKEN_KEY, b64encode csrfSaveFails.cipher.generate.1) :=
  C7_save_failure_nonfatal csrfSaveFails reqGET "backend unavailable"
    (Or.inl rfl) rfl

/-- Claim C8: the finder chain returns `none` exactly when every configured
finder returns `none`; and if the finder at position `i` is the first to
return a token, `find_token` returns that token and the loop has consulted
exactly `i + 1` finders, so no finder after position `i` is invoked. -/
theorem C8_finder_chain_first_wins (c : Csrf) (req : Request) :
    (c.find_token req = none ↔ ∀ f ∈ c.finders, f req = none) ∧
    (∀ i : Nat, ∀ hi : i < c.finders.length,
      (∀ j : Nat, ∀ hj : j < c.finders.length, j < i →
        c.finders.get ⟨j, hj⟩ req = none) →
      ∀ t : String, c.finders.get ⟨i, hi⟩ req = some t →
        c.find_token req = some t ∧
        find_token_consulted req c.finders = i + 1) :=
  ⟨find_token_in_none_iff req c.finders,
    fun i hi hprev t ht => find_token_in_first req c.finders i hi hprev t ht⟩

/-- Witness for C8: with two finders where the first finds nothing, the
second finder's token wins and exactly two finders are consulted. -/
theorem C8_finder_chain_first_wins_witness :
    csrfTwoFinders.find_token reqPOST = some "AAAA" ∧
    find_token_consulted reqPOST csrfTwoFinders.finders = 1 + 1 :=
  (C8_finder_chain_first_wins csrfTwoFinders reqPOST).2 1 (by decide)
    (by
      intro j hj hj1
      have hj0 : j = 0 := by omega
      subst hj0
      rfl)
    "AAAA" rfl

/-- Claim C9 (implicit, describing the code as written): for a non-skipped
request with a found and decoded token and a loaded secret, the guard accepts
(calls the next handler) if and only if the primary cipher's verify succeeds
— fallback ciphers never determine acceptance, since their loop only runs
when the fallback list is empty. -/
theorem C9_primary_cipher_determines (c : Csrf) (req : Request)
    (t : String) (tb secret : List Nat)
    (hskip : c.skipper req = false)
    (hfind : c.find_token req = some t)
    (hdec : b64decode t = some tb)
    (hsec : c.store.load_secret req = some secret) :
    (c.handle req).next_called = 1 ↔ c.cipher.verify tb secret = true := by
  constructor
  · intro hacc
    by_contra hv
    rw [Bool.not_eq_true] at hv
    rw [handle_rejected_of_primary_fail c req t tb secret hskip hfind hdec hsec hv] at hacc
    simp [rejected] at hacc
  · intro hv
    rw [handle_proceed_of_verify c req t tb secret hskip hfind hdec hsec hv]
    rfl

/-- Witness for C9 at a concrete guard and request. -/
theorem C9_primary_cipher_determines_witness :
    (csrfFallback.handle reqPOST).next_called = 1 ↔
      csrfFallback.cipher.verify [0, 0, 0] [0, 0, 0] = true :=
  C9_primary_cipher_determines csrfFallback reqPOST "AAAA" [0, 0, 0] [0, 0, 0]
    rfl rfl rfl rfl

/-- Claim C10: on every rejection path of a non-skipped request (no token,
decode failure, missing secret, or failed primary verification), the outcome
is exactly `rejected`: no secret is saved, nothing is inserted into the
depot, the next handler is not called — and the outcome does not depend on
the cipher's generate output, so no new pair is ever produced for a rejected
request. -/
theorem C10_rejection_is_atomic (c : Csrf) (req : Request)
    (hskip : c.skipper req = false)
    (hbad : c.find_token req = none ∨
      (∃ t, c.find_token req = some t ∧ b64decode t = none) ∨
      (∃ t tb, c.find_token req = some t ∧ b64decode t = some tb ∧
        c.store.load_secret req = none) ∨
      (∃ t tb secret, c.find_token req = some t ∧ b64decode t = some tb ∧
        c.store.load_secret req = some secret ∧
        c.cipher.verify tb secret = false)) :
    c.handle req = rejected ∧
    (c.handle req).saved_secret = none ∧
    (c.handle req).depot_insert = none ∧
    (c.handle req).next_called = 0 ∧
    ∀ g : List Nat × List Nat,
      Csrf.handle { c with cipher := { verify := c.cipher.verify, generate := g } } req =
        rejected := by
  have hrej : c.handle req = rejected := by
    rcases hbad with hfind | ⟨t, hfind, hdec⟩ | ⟨t, tb, hfind, hdec, hsec⟩ |
      ⟨t, tb, secret, hfind, hdec, hsec, hv⟩
    · exact handle_rejected_of_no_token c req hskip hfind
    · exact handle_rejected_of_bad_decode c req t hskip hfind hdec
    · exact handle_rejected_of_no_secret c req t tb hskip hfind hdec hsec
    · exact handle_rejected_of_primary_fail c req t tb secret hskip hfind hdec hsec hv
  refine ⟨hrej, by rw [hrej]; rfl, by rw [hrej]; rfl, by rw [hrej]; rfl, ?_⟩
  intro g
  rcases hbad with hfind | ⟨t, hfind, hdec⟩ | ⟨t, tb, hfind, hdec, hsec⟩ |
    ⟨t, tb, secret, hfind, hdec, hsec, hv⟩
  · exact handle_rejected_of_no_token
      { c with cipher := { verify := c.cipher.verify, generate := g } } req hskip hfind
  · exact handle_rejected_of_bad_decode
      { c with cipher := { verify := c.cipher.verify, generate := g } } req t hskip hfind hdec
  · exact handle_rejected_of_no_secret
      { c with cipher := { verify := c.cipher.verify, generate := g } } req t tb
      hskip hfind hdec hsec
  · exact handle_rejected_of_primary_fail
      { c with cipher := { verify := c.cipher.verify, generate := g } } req t tb secret
      hskip hfind hdec hsec hv

/-- Witness for C10: a POST with no token leaves no trace — no save, no depot
value, no downstream call, independent of the generate output. -/
theorem C10_rejection_is_atomic_witness :
    csrfEq.handle reqPOSTEmpty = rejected ∧
    (csrfEq.handle reqPOSTEmpty).saved_secret = none ∧
    (csrfEq.handle reqPOSTEmpty).depot_insert = none ∧
    (csrfEq.handle reqPOSTEmpty).next_called = 0 ∧
    ∀ g : List Nat × List Nat,
      Csrf.handle { csrfEq with cipher := { verify := csrfEq.cipher.verify, generate := g } }
        reqPOSTEmpty = rejected :=
  C10_rejection_is_atomic csrfEq reqPOSTEmpty rfl (Or.inl rfl)

end SalvoCsrf
